import Mathlib

/-!
Verification development for the `data_updater` microservice
(StatikElektrik/microservices).

The Python sources are shallowly embedded:

* `src/data_updater/thingsboard_adaptor.py` — the telemetry mapper
  `ThingsBoardAdaptor.get_device_telemetry`, which turns the raw
  ThingsBoard latest-timeseries dictionary into a `TelemetryMessage`.
* `src/data_updater/database_handler.py` — the `DatabaseHandler` with its
  `with_cursor` decorator, modelled as a state machine over `HState`.
* `src/data_updater/database_adaptor.py` — the `DatabaseAdaptor`.
* `src/data_updater/service.py` — `DataUpdaterService.run` and
  `_get_all_telemetry`.

Python exceptions are modelled with `Except PyError`; raising aborts the
rest of a function body exactly as exception propagation does.  Machine
floats in telemetry payloads are modelled by rationals (`ℚ`); no claim
depends on float rounding or rendering.
-/

/-- A primitive JSON / Python value appearing in telemetry payloads and
database rows: a number (Python int/float, modelled by `ℚ`) or a string. -/
inductive JVal where
  | num (q : ℚ)
  | str (s : String)
deriving DecidableEq, Repr

/-- Python `str(value)` as used by `insert_into_table` when splicing the
values into the SQL text.  Integers render exactly as in Python; for
non-integral rationals (standing in for floats) we keep Lean's rendering —
no claim depends on the float rendering itself. -/
def pyStr : JVal → String
  | .num q => if q.den = 1 then toString q.num else toString q
  | .str s => s

/-- The Python exceptions the embedded code can raise.
`keyError k` is `KeyError(k)` from a dictionary subscript, `indexError` is
`IndexError` from `[0]` on an empty list, `jsonDecodeError` is
`json.JSONDecodeError` (it carries a document position, not a field name),
`attributeError n` is `AttributeError` from looking up a missing attribute
`n`, `typeError` is the `TypeError` psycopg2 raises client-side when its
parameter merge finds a mismatch between `%s` placeholders and the
arguments ("not all arguments converted ..."), and `statementError`
stands for a psycopg2 database error raised server-side by a sent
statement (e.g. `UndefinedTable`). -/
inductive PyError where
  | keyError (key : String)
  | indexError
  | jsonDecodeError
  | attributeError (name : String)
  | typeError
  | statementError
deriving DecidableEq, Repr

/-- Whether an `Except` result is a success (Python: no exception). -/
def exIsOk : Except PyError α → Bool
  | .ok _ => true
  | .error _ => false

/-- The group/field named by an exception, if any: Python's `KeyError`
carries the missing key; a `JSONDecodeError` names no group or field. -/
def errorNamesKey : PyError → Option String
  | .keyError k => some k
  | _ => none

/-- Python dictionary subscript `d[k]`: the value when the key is present,
`KeyError(k)` otherwise. -/
def dictGet (k : String) : List (String × α) → Except PyError α
  | [] => .error (.keyError k)
  | (k', v) :: rest => if k' = k then .ok v else dictGet k rest

/-- Python `l[0]`: the head of the list, or `IndexError` when empty. -/
def listHead : List α → Except PyError α
  | [] => .error .indexError
  | a :: _ => .ok a

/-- The `value` payload string of a timeseries entry, as seen by
`json.loads`: either it parses to a JSON object (represented by its parse)
or it is malformed. -/
inductive JsonDoc where
  | obj (fields : List (String × JVal))
  | malformed (raw : String)
deriving DecidableEq, Repr

/-- `json.loads` on a payload: the field list of a well-formed object, or
`json.JSONDecodeError` on a malformed document. -/
def jsonLoads : JsonDoc → Except PyError (List (String × JVal))
  | .obj fields => .ok fields
  | .malformed _ => .error .jsonDecodeError

/-- One entry of a ThingsBoard latest-timeseries list: a dict with a
`value` payload (a string holding JSON) and a `ts` timestamp.  Both keys
are always present in the platform's entries, so they are structure
fields; the payload's parseability is captured by `JsonDoc`. -/
structure TsEntry where
  value : JsonDoc
  ts : JVal
deriving DecidableEq, Repr

/-- The raw reading returned by `get_latest_timeseries`: a dictionary from
sensor-group name (`bat`, `gnss`, `dev`, `env`, `ai`) to a list of
timeseries entries. -/
abbrev TelemetryDict := List (String × List TsEntry)

/-- `json.loads(telemetry_message[group][0]["value"])` — fetch a group's
entry list, take the first entry, and parse its payload. -/
def loadGroup (telemetry_message : TelemetryDict) (group : String) :
    Except PyError (List (String × JVal)) := do
  let entries ← dictGet group telemetry_message
  let entry ← listHead entries
  jsonLoads entry.value

/-- `json.loads(telemetry_message[group][0]["value"])[sub]` — one parsed
sub-field of a sensor group's payload.  Mirrors the Python source, which
re-parses the payload for every field it extracts. -/
def jfield (telemetry_message : TelemetryDict) (group sub : String) :
    Except PyError JVal := do
  let obj ← loadGroup telemetry_message group
  dictGet sub obj

/-- `telemetry_message[group][0]["ts"]` — the outer timestamp of a group's
first timeseries entry (not the one inside the JSON payload). -/
def outer_ts (telemetry_message : TelemetryDict) (group : String) :
    Except PyError JVal := do
  let entries ← dictGet group telemetry_message
  let entry ← listHead entries
  return entry.ts

/-- The flat, fixed-shape record built by the mapper
(`TelemetryMessage` dataclass of `thingsboard_adaptor.py`). -/
structure TelemetryMessage where
  battery_percentage : JVal
  battery_timestamp : JVal
  gps_latitude : JVal
  gps_longitude : JVal
  gps_speed : JVal
  gps_timestamp : JVal
  cellular_imei : JVal
  cellular_iccid : JVal
  firmware_version : JVal
  board_version : JVal
  application_version : JVal
  development_timestamp : JVal
  environmental_temperature : JVal
  environmental_humidity : JVal
  environmental_pressure : JVal
  environmental_timestamp : JVal
  ai_normal_percentage : JVal
  ai_error1_percentage : JVal
  ai_error2_percentage : JVal
  ai_error3_percentage : JVal
  ai_timestamp : JVal
deriving DecidableEq, Repr

/-- `ThingsBoardAdaptor.get_device_telemetry`, after the
`get_latest_timeseries` network call (whose result is the input here): the
keyword arguments of the `TelemetryMessage(...)` constructor call are
evaluated left to right, exactly in source order, and the first failing
lookup or parse raises. -/
def get_device_telemetry (telemetry_message : TelemetryDict) :
    Except PyError TelemetryMessage := do
  let battery_percentage ← jfield telemetry_message "bat" "v"
  let battery_timestamp ← jfield telemetry_message "bat" "ts"
  let gps_latitude ← jfield telemetry_message "gnss" "lat"
  let gps_longitude ← jfield telemetry_message "gnss" "lng"
  let gps_speed ← jfield telemetry_message "gnss" "spd"
  let gps_timestamp ← outer_ts telemetry_message "gnss"
  let cellular_imei ← jfield telemetry_message "dev" "imei"
  let cellular_iccid ← jfield telemetry_message "dev" "iccid"
  let firmware_version ← jfield telemetry_message "dev" "modV"
  let board_version ← jfield telemetry_message "dev" "brdV"
  let application_version ← jfield telemetry_message "dev" "appV"
  let development_timestamp ← jfield telemetry_message "dev" "ts"
  let environmental_temperature ← jfield telemetry_message "env" "temp"
  let environmental_humidity ← jfield telemetry_message "env" "hum"
  let environmental_pressure ← jfield telemetry_message "env" "atmp"
  let environmental_timestamp ← jfield telemetry_message "env" "ts"
  let ai_normal_percentage ← jfield telemetry_message "ai" "n"
  let ai_error1_percentage ← jfield telemetry_message "ai" "e1"
  let ai_error2_percentage ← jfield telemetry_message "ai" "e2"
  let ai_error3_percentage ← jfield telemetry_message "ai" "e3"
  let ai_timestamp ← jfield telemetry_message "ai" "ts"
  return {
    battery_percentage, battery_timestamp,
    gps_latitude, gps_longitude, gps_speed, gps_timestamp,
    cellular_imei, cellular_iccid, firmware_version, board_version,
    application_version, development_timestamp,
    environmental_temperature, environmental_humidity,
    environmental_pressure, environmental_timestamp,
    ai_normal_percentage, ai_error1_percentage, ai_error2_percentage,
    ai_error3_percentage, ai_timestamp
  }

/-! ## `database_handler.py` — the Persistence Gateway

The PostgreSQL server is modelled at the granularity the handler uses it:
a set of named tables (with their ordered column definitions) and the rows
inserted into them.  A statement sent before `commit` takes effect in the
pending (uncommitted) part of the state; `commit` makes the pending part
durable and `rollback` discards it.  Uncommitted changes are visible to
later statements on the same connection, matching PostgreSQL behaviour.
`cursor.execute(sql)` (no parameters, Python `vars` is `None`) sends the
statement as-is; `cursor.execute(sql, params)` first merges the
parameters into the `%s` placeholders client-side and raises `TypeError`
when their numbers disagree — before anything reaches the server.  An
`execute` event records each `cursor.execute` call with the statement
text and the parameters passed (`none` when called without them). -/

/-- One observable event on the database connection. -/
inductive DbEvent where
  | execute (sql : String) (params : Option (List JVal))
  | commit
  | rollback
deriving DecidableEq, Repr

/-- The database server state: committed tables and rows, plus the
pending (uncommitted) tables and rows of the connection's open
transaction.  A table is a name with its ordered column definitions; a
row is the ordered column/value mapping passed to INSERT. -/
structure DbState where
  tables : List (String × List (String × String))
  pendingTables : List (String × List (String × String))
  rows : List (String × List (String × JVal))
  pendingRows : List (String × List (String × JVal))
deriving DecidableEq, Repr

/-- Names of tables visible to a statement on this connection: committed
tables plus tables created in the not-yet-committed transaction. -/
def tableNames (db : DbState) : List String :=
  db.tables.map Prod.fst ++ db.pendingTables.map Prod.fst

/-- The rows a query on table `t` sees (committed plus pending). -/
def rowsFor (t : String) (db : DbState) : List (List (String × JVal)) :=
  ((db.rows ++ db.pendingRows).filter fun p => p.1 == t).map Prod.snd

/-- The whole `DatabaseHandler` state: `self.db_cursor` (an open cursor or
`None`), the database reachable through `self.db_conn`, and the trace of
events sent over the connection. -/
structure HState where
  db_cursor : Option Unit
  db : DbState
  trace : List DbEvent
deriving DecidableEq, Repr

/-- Append an event to the connection trace. -/
def pushEvent (e : DbEvent) (s : HState) : HState :=
  { s with trace := s.trace ++ [e] }

/-- `DatabaseHandler.acquire_cursor`: open a cursor only when none is
open (`if not self.db_cursor`). -/
def acquire_cursor (s : HState) : HState :=
  match s.db_cursor with
  | some _ => s
  | none => { s with db_cursor := some () }

/-- `DatabaseHandler.release_cursor`: `self.db_cursor.close()` followed by
`self.db_cursor = None`. -/
def release_cursor (s : HState) : HState :=
  { s with db_cursor := none }

/-- The `with_cursor` decorator of `database_handler.py`: acquire the
cursor, run the body, release the cursor, return the body's result.  The
wrapper has no `try`/`finally`, so when the body raises, the exception
propagates and `release_cursor` is never reached. -/
def with_cursor (f : HState → Except PyError α × HState) (s : HState) :
    Except PyError α × HState :=
  let s1 := acquire_cursor s
  match f s1 with
  | (.ok a, s2) => (.ok a, release_cursor s2)
  | (.error e, s2) => (.error e, s2)

/-- Count the `%s` placeholders of a statement (the only `%` format
psycopg2's merge meets in the embedded queries). -/
def countPlaceholdersAux : List Char → Nat
  | [] => 0
  | '%' :: 's' :: rest => countPlaceholdersAux rest + 1
  | _ :: rest => countPlaceholdersAux rest

/-- Number of `%s` placeholders in a statement's text. -/
def countPlaceholders (sql : String) : Nat :=
  countPlaceholdersAux sql.data

/-- `self.db_cursor.execute(...)`: raises `AttributeError` when
`db_cursor` is `None`; otherwise the call is recorded as an event.  With
no parameters (`params = none`, Python `vars = None`) the statement is
sent as-is.  With parameters, psycopg2 first merges them into the `%s`
placeholders client-side and raises `TypeError` ("not all arguments
converted") when the placeholder and argument counts disagree — nothing
is sent to the server in that case. -/
def executeStmt (sql : String) (params : Option (List JVal)) (s : HState) :
    Except PyError Unit × HState :=
  match s.db_cursor with
  | none => (.error (.attributeError "execute"), s)
  | some _ =>
    let s1 := pushEvent (.execute sql params) s
    match params with
    | none => (.ok (), s1)
    | some ps =>
      if countPlaceholders sql = ps.length then (.ok (), s1)
      else (.error .typeError, s1)

/-- `self.db_conn.commit()`: make the pending transaction durable. -/
def commitConn (s : HState) : HState :=
  { s with
    db := { tables := s.db.tables ++ s.db.pendingTables
            pendingTables := []
            rows := s.db.rows ++ s.db.pendingRows
            pendingRows := [] }
    trace := s.trace ++ [.commit] }

/-- `self.db_conn.rollback()`: discard the pending transaction. -/
def rollbackConn (s : HState) : HState :=
  { s with
    db := { s.db with pendingTables := [], pendingRows := [] }
    trace := s.trace ++ [.rollback] }

/-- Body of `DatabaseHandler.check_table_exists` (run under
`with_cursor`): executes the `information_schema.tables` existence query
with the table name as parameter and returns the fetched boolean. -/
def check_table_exists_body (table_name : String) (s : HState) :
    Except PyError Bool × HState :=
  match executeStmt
      "SELECT EXISTS(SELECT 1 FROM information_schema.tables WHERE table_name=%s)"
      (some [.str table_name]) s with
  | (.error e, s1) => (.error e, s1)
  | (.ok _, s1) => (.ok (decide (table_name ∈ tableNames s1.db)), s1)

/-- `DatabaseHandler.check_table_exists`. -/
def check_table_exists (table_name : String) : HState → Except PyError Bool × HState :=
  with_cursor (check_table_exists_body table_name)

/-- Body of `DatabaseHandler.create_table`: builds the
`CREATE TABLE IF NOT EXISTS` statement from the column dictionary,
executes it (the server creates the table only when absent), then — as
written in the source — calls `commit()` and then `rollback()`. -/
def create_table_body (table_name : String) (columns : List (String × String))
    (s : HState) : Except PyError Unit × HState :=
  let column_definitaions :=
    String.intercalate ", " (columns.map fun p => p.1 ++ " " ++ p.2)
  let create_table_query :=
    "CREATE TABLE IF NOT EXISTS " ++ table_name ++ " (" ++ column_definitaions ++ ")"
  match executeStmt create_table_query none s with
  | (.error e, s1) => (.error e, s1)
  | (.ok _, s1) =>
    let s2 :=
      if table_name ∈ tableNames s1.db then s1
      else { s1 with db :=
              { s1.db with pendingTables := s1.db.pendingTables ++ [(table_name, columns)] } }
    (.ok (), rollbackConn (commitConn s2))

/-- `DatabaseHandler.create_table`. -/
def create_table (table_name : String) (columns : List (String × String)) :
    HState → Except PyError Unit × HState :=
  with_cursor (create_table_body table_name columns)

/-- The INSERT statement text `insert_into_table` builds: the dict's keys
and the `str(value)` of each value joined into the SQL text (the local
`insert_query` of the Python source). -/
def insert_query (table_name : String) (column_values : List (String × JVal)) :
    String :=
  "INSERT INTO " ++ table_name ++ " (" ++
    String.intercalate ", " (column_values.map Prod.fst) ++ ") VALUES (" ++
    String.intercalate ", " (column_values.map fun p => pyStr p.2) ++ ")"

/-- Body of `DatabaseHandler.insert_into_table`: builds the INSERT
statement by joining the dict's keys and the `str(value)` of each value
into the SQL text, then calls `execute` with the values tuple as
parameters as well.  Because the constructed text carries the values
spliced in rather than `%s` placeholders, psycopg2's client-side merge
raises `TypeError` for every non-empty values tuple (unless spliced text
happens to contain matching `%s`); when the merge passes, the server
rejects an INSERT into a missing table; on success the source then calls
`commit()` and then `rollback()`. -/
def insert_into_table_body (table_name : String)
    (column_values : List (String × JVal)) (s : HState) :
    Except PyError Unit × HState :=
  let values := column_values.map Prod.snd
  match executeStmt (insert_query table_name column_values) (some values) s with
  | (.error e, s1) => (.error e, s1)
  | (.ok _, s1) =>
    if table_name ∈ tableNames s1.db then
      (.ok (), rollbackConn (commitConn
        { s1 with db :=
            { s1.db with pendingRows := s1.db.pendingRows ++ [(table_name, column_values)] } }))
    else
      (.error .statementError, s1)

/-- `DatabaseHandler.insert_into_table`. -/
def insert_into_table (table_name : String) (column_values : List (String × JVal)) :
    HState → Except PyError Unit × HState :=
  with_cursor (insert_into_table_body table_name column_values)

/-- Body of `DatabaseHandler.get_columns_from_table`: executes the SELECT
and returns the fetched rows (the server rejects a SELECT on a missing
table).  Column projection and `extras` filtering happen server-side and
are not modelled beyond the statement text. -/
def get_columns_from_table_body (table_name column_names extras : String)
    (s : HState) : Except PyError (List (List (String × JVal))) × HState :=
  match executeStmt
      ("SELECT " ++ column_names ++ " FROM " ++ table_name ++ " " ++ extras) none s with
  | (.error e, s1) => (.error e, s1)
  | (.ok _, s1) =>
    if table_name ∈ tableNames s1.db then (.ok (rowsFor table_name s1.db), s1)
    else (.error .statementError, s1)

/-- `DatabaseHandler.get_columns_from_table`. -/
def get_columns_from_table (table_name column_names extras : String) :
    HState → Except PyError (List (List (String × JVal))) × HState :=
  with_cursor (get_columns_from_table_body table_name column_names extras)

/-- Body of `DatabaseHandler.check_value_exists`: counts the rows of the
table whose given column holds the given value and returns `count > 0`. -/
def check_value_exists_body (table_name column_name : String) (value : JVal)
    (s : HState) : Except PyError Bool × HState :=
  match executeStmt
      ("SELECT COUNT(*) FROM " ++ table_name ++ " WHERE " ++ column_name ++ " = %s")
      (some [value]) s with
  | (.error e, s1) => (.error e, s1)
  | (.ok _, s1) =>
    if table_name ∈ tableNames s1.db then
      let count := (rowsFor table_name s1.db).countP
        fun row =>
          match dictGet column_name row with
          | .ok v => decide (v = value)
          | .error _ => false
      (.ok (decide (0 < count)), s1)
    else (.error .statementError, s1)

/-- `DatabaseHandler.check_value_exists`. -/
def check_value_exists (table_name column_name : String) (value : JVal) :
    HState → Except PyError Bool × HState :=
  with_cursor (check_value_exists_body table_name column_name value)

/-! ## `database_adaptor.py` — the Schema Registry -/

/-- `DeviceTableStatus` of `database_adaptor.py`. -/
inductive DeviceTableStatus where
  | NEW
  | EXISTING
deriving DecidableEq, Repr

/-- `DatabaseAdaptor.device_table_column_names`: the fixed column-name →
column-type dictionary of a device table, in source order. -/
def device_table_column_names : List (String × String) :=
  [("battery_percentage", "FLOAT"),
   ("battery_timestamp", "BIGINT"),
   ("gps_latitude", "FLOAT"),
   ("gps_longitude", "FLOAT"),
   ("gps_timestamp", "BIGINT"),
   ("ai_normal_percentage", "INT"),
   ("ai_error1_percentage", "INT"),
   ("ai_error2_percentage", "INT"),
   ("ai_error3_percentage", "INT"),
   ("ai_timestamp", "BIGINT")]

/-- `DatabaseAdaptor.telemetry_to_database_entry_converter`: the column →
value dictionary persisted for a telemetry message (a strict subset of the
mapped record's fields, in source order). -/
def telemetry_to_database_entry_converter (telemetry : TelemetryMessage) :
    List (String × JVal) :=
  [("battery_percentage", telemetry.battery_percentage),
   ("battery_timestamp", telemetry.battery_timestamp),
   ("gps_latitude", telemetry.gps_latitude),
   ("gps_longitude", telemetry.gps_longitude),
   ("gps_timestamp", telemetry.gps_timestamp),
   ("ai_normal_percentage", telemetry.ai_normal_percentage),
   ("ai_error1_percentage", telemetry.ai_error1_percentage),
   ("ai_error2_percentage", telemetry.ai_error2_percentage),
   ("ai_error3_percentage", telemetry.ai_error3_percentage),
   ("ai_timestamp", telemetry.ai_timestamp)]

/-- `DatabaseAdaptor.create_new_device_table`: name the table
`device_<device_id>`, check existence, create it when absent (returning
`NEW`), otherwise return `EXISTING`. -/
def create_new_device_table (device_id : String) (s : HState) :
    Except PyError DeviceTableStatus × HState :=
  let table_name := "device_" ++ device_id
  match check_table_exists table_name s with
  | (.error e, s1) => (.error e, s1)
  | (.ok b, s1) =>
    if b then (.ok .EXISTING, s1)
    else
      match create_table table_name device_table_column_names s1 with
      | (.error e, s2) => (.error e, s2)
      | (.ok _, s2) => (.ok .NEW, s2)

/-- `DatabaseAdaptor.add_telemetry`: insert the converted telemetry into
the `device_<device_id>` table. -/
def add_telemetry (device_id : String) (telemetry : TelemetryMessage)
    (s : HState) : Except PyError Unit × HState :=
  insert_into_table ("device_" ++ device_id)
    (telemetry_to_database_entry_converter telemetry) s

/-! ## `service.py` — the Sync Orchestrator

The ThingsBoard client is a parameter `client : ThingsBoardDevice →
TelemetryDict` standing for `get_latest_timeseries` on the device's
entity id; the device list is the result of `get_project_devices`. -/

/-- `ThingsBoardDevice` dataclass of `thingsboard_adaptor.py`. -/
structure ThingsBoardDevice where
  name : String
  id : String
deriving DecidableEq, Repr

/-- The loop body of `DataUpdaterService._get_all_telemetry`: for each
device of the list, the source calls
`self.thingsboard_connector.get_device_telemetry(devices[0])` — the fixed
FIRST device, not the loop device — and appends
`{"device": each_device, "telemetry": telemetry}`. -/
def get_all_telemetry_loop (client : ThingsBoardDevice → TelemetryDict)
    (first : ThingsBoardDevice) :
    List ThingsBoardDevice →
      Except PyError (List (ThingsBoardDevice × TelemetryMessage))
  | [] => .ok []
  | each_device :: rest => do
    let telemetry ← get_device_telemetry (client first)
    let tail ← get_all_telemetry_loop client first rest
    return (each_device, telemetry) :: tail

/-- `DataUpdaterService._get_all_telemetry` over a given device list:
an empty list yields an empty result (the loop body never runs and
`devices[0]` is never evaluated); otherwise the loop runs with
`devices[0]` as the fixed fetch target. -/
def get_all_telemetry (client : ThingsBoardDevice → TelemetryDict)
    (devices : List ThingsBoardDevice) :
    Except PyError (List (ThingsBoardDevice × TelemetryMessage)) :=
  match devices with
  | [] => .ok []
  | first :: rest => get_all_telemetry_loop client first (first :: rest)

/-- The per-message loop of `DataUpdaterService.run`: provision the device
table, insert the telemetry, then call
`self.database_adaptor.update_vehicles_data(...)` — `DatabaseAdaptor`
defines no attribute of that name, so the lookup raises
`AttributeError` and the loop aborts; no later iteration is reachable. -/
def run_loop : List (ThingsBoardDevice × TelemetryMessage) → HState →
    Except PyError Unit × HState
  | [], s => (.ok (), s)
  | (each_device, telemetry) :: _, s =>
    match create_new_device_table each_device.name s with
    | (.error e, s1) => (.error e, s1)
    | (.ok _, s1) =>
      match add_telemetry each_device.name telemetry s1 with
      | (.error e, s2) => (.error e, s2)
      | (.ok _, s2) => (.error (.attributeError "update_vehicles_data"), s2)

/-- `DataUpdaterService.run`: fetch all telemetry messages, then run the
per-message loop.  There is no exception handling anywhere in `run`, so
the first raised exception aborts the run. -/
def run (client : ThingsBoardDevice → TelemetryDict)
    (devices : List ThingsBoardDevice) (s : HState) :
    Except PyError Unit × HState :=
  match get_all_telemetry client devices with
  | .error e => (.error e, s)
  | .ok telemetry_messages => run_loop telemetry_messages s

/-! ## Helper instances and lemmas -/

instance {ε α : Type} [DecidableEq ε] [DecidableEq α] : DecidableEq (Except ε α)
  | .ok a, .ok b =>
    if h : a = b then .isTrue (by rw [h]) else .isFalse (fun c => by cases c; exact h rfl)
  | .error a, .error b =>
    if h : a = b then .isTrue (by rw [h]) else .isFalse (fun c => by cases c; exact h rfl)
  | .ok _, .error _ => .isFalse nofun
  | .error _, .ok _ => .isFalse nofun

/-! ## Concrete states and inputs used by the claim theorems -/

/-- A freshly connected handler: no open cursor, empty database. -/
def hs0 : HState :=
  { db_cursor := none
    db := { tables := [], pendingTables := [], rows := [], pendingRows := [] }
    trace := [] }

/-- A handler state whose database already holds a table `t`. -/
def hsWithT : HState :=
  { hs0 with db := { hs0.db with tables := [("t", [("a", "INT")])] } }

/-- A fully well-formed raw reading whose battery percentage is `v`. -/
def goodMsgWith (v : ℚ) : TelemetryDict :=
  [("bat", [{ value := .obj [("v", .num v), ("ts", .num 1700000000)],
              ts := .num 1700000000 }]),
   ("gnss", [{ value := .obj [("lat", .num 41), ("lng", .num 29), ("spd", .num 3)],
               ts := .num 1700000001 }]),
   ("dev", [{ value := .obj [("imei", .num 356938035643809),
                             ("iccid", .num 8901260852290182),
                             ("modV", .str "1.0.0"), ("brdV", .str "v2"),
                             ("appV", .str "0.3.1"), ("ts", .num 1700000003)],
              ts := .num 1700000003 }]),
   ("env", [{ value := .obj [("temp", .num 21), ("hum", .num 40),
                             ("atmp", .num 1013), ("ts", .num 1700000004)],
              ts := .num 1700000004 }]),
   ("ai", [{ value := .obj [("n", .num 90), ("e1", .num 5), ("e2", .num 3),
                            ("e3", .num 2), ("ts", .num 1700000005)],
             ts := .num 1700000005 }])]

/-- Device `A` of the counterexample fleets. -/
def devA : ThingsBoardDevice := { name := "A", id := "idA" }

/-- Device `B` of the counterexample fleets. -/
def devB : ThingsBoardDevice := { name := "B", id := "idB" }

/-- A telemetry source where device `A` reports battery 10 and every other
device reports battery 99. -/
def clientAB : ThingsBoardDevice → TelemetryDict :=
  fun d => if d.id = "idA" then goodMsgWith 10 else goodMsgWith 99

/-- A telemetry source where device `A`'s latest-timeseries dictionary is
empty (its reading fails mapping at the `bat` group) and every other
device reports a well-formed reading. -/
def clientBadA : ThingsBoardDevice → TelemetryDict :=
  fun d => if d.id = "idA" then [] else goodMsgWith 99

/-- A telemetry source where every device reports the same well-formed
reading. -/
def clientGood : ThingsBoardDevice → TelemetryDict :=
  fun _ => goodMsgWith 87

/-- The spec's C7 example reading, exactly as written: a `bat` group with
payload `{"v": 87, "ts": 1700000000}`, a `gnss` group with payload
`{"lat": 41.0, "lng": 29.0, "spd": 3.2}` and outer ts 1700000001, and an
`ai` group with payload `{"n": 90, "e1": 5, "e2": 3, "e3": 2}` and outer
ts 1700000002. -/
def c7SpecMsg : TelemetryDict :=
  [("bat", [{ value := .obj [("v", .num 87), ("ts", .num 1700000000)],
              ts := .num 1700000000 }]),
   ("gnss", [{ value := .obj [("lat", .num 41.0), ("lng", .num 29.0),
                              ("spd", .num 3.2)],
               ts := .num 1700000001 }]),
   ("ai", [{ value := .obj [("n", .num 90), ("e1", .num 5), ("e2", .num 3),
                            ("e3", .num 2)],
             ts := .num 1700000002 }])]

/-- The C7 example extended with exactly what the source requires: `dev`
and `env` groups, and an inner `"ts": 1700000002` sub-field in the `ai`
payload. -/
def c7AmendedMsg : TelemetryDict :=
  [("bat", [{ value := .obj [("v", .num 87), ("ts", .num 1700000000)],
              ts := .num 1700000000 }]),
   ("gnss", [{ value := .obj [("lat", .num 41.0), ("lng", .num 29.0),
                              ("spd", .num 3.2)],
               ts := .num 1700000001 }]),
   ("dev", [{ value := .obj [("imei", .num 356938035643809),
                             ("iccid", .num 8901260852290182),
                             ("modV", .str "1.0.0"), ("brdV", .str "v2"),
                             ("appV", .str "0.3.1"), ("ts", .num 1700000003)],
              ts := .num 1700000003 }]),
   ("env", [{ value := .obj [("temp", .num 21), ("hum", .num 40),
                             ("atmp", .num 1013), ("ts", .num 1700000004)],
              ts := .num 1700000004 }]),
   ("ai", [{ value := .obj [("n", .num 90), ("e1", .num 5), ("e2", .num 3),
                            ("e3", .num 2), ("ts", .num 1700000002)],
             ts := .num 1700000002 }])]

/-- Find a table's column definitions by name (first match), mirroring
how the unique table names of the model are looked up. -/
def lookupTable (t : String) :
    List (String × List (String × String)) → Option (List (String × String))
  | [] => none
  | (n, cols) :: rest => if n = t then some cols else lookupTable t rest

/-! ## Claim C6: mapper totality over failure -/

/-- The sensor groups the mapper requires, in evaluation order. -/
def requiredGroups : List String := ["bat", "gnss", "dev", "env", "ai"]

/-- The payload sub-fields the mapper extracts from each group, in
evaluation order (the `gnss` timestamp is the outer one, not a payload
sub-field). -/
def groupSubFields : String → List String
  | "bat" => ["v", "ts"]
  | "gnss" => ["lat", "lng", "spd"]
  | "dev" => ["imei", "iccid", "modV", "brdV", "appV", "ts"]
  | "env" => ["temp", "hum", "atmp", "ts"]
  | "ai" => ["n", "e1", "e2", "e3", "ts"]
  | _ => []

/-- A sensor group is well-formed in a raw reading when it is present
with a nonempty entry list, its first entry's payload parses, and every
sub-field the mapper needs is present in the parsed payload. -/
def wfGroupB (msg : TelemetryDict) (g : String) : Bool :=
  match dictGet g msg with
  | .error _ => false
  | .ok [] => false
  | .ok (e :: _) =>
    match jsonLoads e.value with
    | .error _ => false
    | .ok obj => (groupSubFields g).all fun s => exIsOk (dictGet s obj)

/-- A raw reading whose `bat` group is present but whose payload is not
parseable JSON. -/
def c6BadBatMsg : TelemetryDict :=
  [("bat", [{ value := .malformed "battery 87", ts := .num 0 }])]

/-- A raw reading that is well-formed except that the `ai` group is
entirely absent. -/
def c6MissingAiMsg : TelemetryDict :=
  [("bat", [{ value := .obj [("v", .num 87), ("ts", .num 1700000000)],
              ts := .num 1700000000 }]),
   ("gnss", [{ value := .obj [("lat", .num 41), ("lng", .num 29), ("spd", .num 3)],
               ts := .num 1700000001 }]),
   ("dev", [{ value := .obj [("imei", .num 356938035643809),
                             ("iccid", .num 8901260852290182),
                             ("modV", .str "1.0.0"), ("brdV", .str "v2"),
                             ("appV", .str "0.3.1"), ("ts", .num 1700000003)],
              ts := .num 1700000003 }]),
   ("env", [{ value := .obj [("temp", .num 21), ("hum", .num 40),
                             ("atmp", .num 1013), ("ts", .num 1700000004)],
              ts := .num 1700000004 }])]

theorem ebind_ok {α β : Type} (a : α) (f : α → Except PyError β) :
    (Except.ok a : Except PyError α) >>= f = f a := rfl

theorem ebind_err {α β : Type} (e : PyError) (f : α → Except PyError β) :
    (Except.error e : Except PyError α) >>= f = .error e := rfl

/-- `exIsOk r = true` exactly when `r` is some `.ok` value. -/
theorem exIsOk_iff {α : Type} (r : Except PyError α) :
    exIsOk r = true ↔ ∃ a, r = .ok a := by
  cases r <;> simp [exIsOk]

/-! ## Claim theorems -/

/-- Claim C1 (code bug demonstrated on the embedded code): a successful
`create_table` statement is followed by BOTH a commit and a rollback on
the connection, and a failing `insert_into_table` statement (every
non-empty insert raises client-side: `TypeError` from psycopg2's
parameter merge, since the constructed text has no placeholders) is
followed by NEITHER commit nor rollback — contradicting the contract
that the unit of work commits exactly when the statement succeeds and
rolls back exactly when it fails, never both for one statement. -/
theorem c1_commit_then_rollback_unconditional :
    ((create_table "c" [("a", "INT")] hs0).fst = .ok ()
      ∧ (create_table "c" [("a", "INT")] hs0).snd.trace =
          [.execute "CREATE TABLE IF NOT EXISTS c (a INT)" none,
           .commit, .rollback])
    ∧ ((insert_into_table "t" [("a", JVal.num 1)] hsWithT).fst =
          .error .typeError
      ∧ (insert_into_table "t" [("a", JVal.num 1)] hsWithT).snd.trace =
          [.execute "INSERT INTO t (a) VALUES (1)" (some [.num 1])]) :=
  ⟨⟨rfl, rfl⟩, rfl, rfl⟩

/-- Claim C2 (code bug demonstrated on the embedded code): with two
devices `A` (battery 10) and `B` (battery 99), the orchestrator's
telemetry-gathering loop stores device `A`'s reading for BOTH entries —
device `B`'s row carries battery 10, although `B`'s own reading (battery
99) maps successfully — because the loop fetches `devices[0]` on every
iteration. -/
theorem c2_loop_fetches_first_device_only :
    (get_all_telemetry clientAB [devA, devB]).map
        (List.map fun p => (p.1.name, p.2.battery_percentage)) =
      .ok [("A", .num 10), ("B", .num 10)]
    ∧ (get_device_telemetry (clientAB devB)).map
        TelemetryMessage.battery_percentage = .ok (.num 99) :=
  ⟨rfl, rfl⟩

/-- Claim C3 (code bug demonstrated on the embedded code): with two
devices where the fetched reading fails mapping (missing `bat` group),
`run` aborts with the raw `KeyError` — the second device is never
attempted, nothing is persisted (the handler state is untouched), and no
per-entity outcome report exists anywhere in the code. -/
theorem c3_failure_aborts_whole_run :
    (run clientBadA [devA, devB] hs0).fst = .error (.keyError "bat")
    ∧ (run clientBadA [devA, devB] hs0).snd = hs0 :=
  ⟨rfl, rfl⟩

/-- Claim C4 (code bug demonstrated on the embedded code): when the unit
of work wrapped by `with_cursor` raises (here the client-side `TypeError`
psycopg2's parameter merge raises on every non-empty insert), the cursor
is NOT released — `db_cursor` is still open after the call — because the
decorator has no `try`/`finally`; on a successful operation the cursor is
released as claimed. -/
theorem c4_cursor_leaked_when_statement_raises :
    (insert_into_table "missing" [("a", JVal.num 1)] hs0).fst =
        .error .typeError
    ∧ (insert_into_table "missing" [("a", JVal.num 1)] hs0).snd.db_cursor = some ()
    ∧ (check_table_exists "t" hs0).snd.db_cursor = none :=
  ⟨rfl, rfl, rfl⟩

/-- Claim C7, counterexample: on the spec's example input the mapper does
NOT produce the claimed record — it raises `KeyError("dev")`, because the
source also requires the `dev` (and `env`) sensor groups, which the
example omits (and it would subsequently require an inner `ts` sub-field
of the `ai` payload, which the example also omits). -/
theorem c7_counterexample_spec_example_fails :
    get_device_telemetry c7SpecMsg = .error (.keyError "dev") := rfl

/-- Claim C7 as amended: on the example input extended with the required
`dev` and `env` groups and an inner `ai` timestamp sub-field
`"ts": 1700000002`, the mapper produces exactly
`battery_percentage=87, battery_timestamp=1700000000, gps_latitude=41.0,
gps_longitude=29.0, gps_timestamp=1700000001, ai_normal_percentage=90,
ai_error1_percentage=5, ai_error2_percentage=3, ai_error3_percentage=2,
ai_timestamp=1700000002` (the `ai_timestamp` comes from the payload's
inner `ts`, not the outer one). -/
theorem c7_amended_mapping_correct :
    get_device_telemetry c7AmendedMsg = .ok
      { battery_percentage := .num 87
        battery_timestamp := .num 1700000000
        gps_latitude := .num 41.0
        gps_longitude := .num 29.0
        gps_speed := .num 3.2
        gps_timestamp := .num 1700000001
        cellular_imei := .num 356938035643809
        cellular_iccid := .num 8901260852290182
        firmware_version := .str "1.0.0"
        board_version := .str "v2"
        application_version := .str "0.3.1"
        development_timestamp := .num 1700000003
        environmental_temperature := .num 21
        environmental_humidity := .num 40
        environmental_pressure := .num 1013
        environmental_timestamp := .num 1700000004
        ai_normal_percentage := .num 90
        ai_error1_percentage := .num 5
        ai_error2_percentage := .num 3
        ai_error3_percentage := .num 2
        ai_timestamp := .num 1700000002 } := rfl

/-! ## Reduction lemmas for the handler operations -/

/-- `check_table_exists` reduces to the existence test on the visible
tables; it releases the cursor and records the SELECT. -/
theorem check_table_exists_eq (t : String) (s : HState) :
    check_table_exists t s =
      (.ok (decide (t ∈ tableNames s.db)),
       { s with db_cursor := none
                trace := s.trace ++
                  [.execute "SELECT EXISTS(SELECT 1 FROM information_schema.tables WHERE table_name=%s)"
                    (some [.str t])] }) := by
  obtain ⟨cur, db, tr⟩ := s
  cases cur <;> rfl

/-- `create_table` on a state where the table is absent: the table is
created and committed (the unconditional rollback afterwards discards
nothing durable), the cursor is released. -/
theorem create_table_not_mem (t : String) (cols : List (String × String))
    (s : HState) (h : t ∉ tableNames s.db) :
    create_table t cols s =
      (.ok (),
       { db_cursor := none
         db := { tables := s.db.tables ++ (s.db.pendingTables ++ [(t, cols)])
                 pendingTables := []
                 rows := s.db.rows ++ s.db.pendingRows
                 pendingRows := [] }
         trace := s.trace ++
           [.execute ("CREATE TABLE IF NOT EXISTS " ++ t ++ " (" ++
              String.intercalate ", " (cols.map fun p => p.1 ++ " " ++ p.2) ++ ")") none,
            .commit, .rollback] }) := by
  obtain ⟨cur, db, tr⟩ := s
  cases cur <;>
    simp [create_table, create_table_body, with_cursor, acquire_cursor,
      release_cursor, executeStmt, pushEvent, commitConn, rollbackConn, h]

/-- `create_table` on a state where the table already exists:
`IF NOT EXISTS` makes the statement a no-op on the schema. -/
theorem create_table_mem (t : String) (cols : List (String × String))
    (s : HState) (h : t ∈ tableNames s.db) :
    create_table t cols s =
      (.ok (),
       { db_cursor := none
         db := { tables := s.db.tables ++ s.db.pendingTables
                 pendingTables := []
                 rows := s.db.rows ++ s.db.pendingRows
                 pendingRows := [] }
         trace := s.trace ++
           [.execute ("CREATE TABLE IF NOT EXISTS " ++ t ++ " (" ++
              String.intercalate ", " (cols.map fun p => p.1 ++ " " ++ p.2) ++ ")") none,
            .commit, .rollback] }) := by
  obtain ⟨cur, db, tr⟩ := s
  cases cur <;>
    simp [create_table, create_table_body, with_cursor, acquire_cursor,
      release_cursor, executeStmt, pushEvent, commitConn, rollbackConn, h]

/-- `insert_into_table` when the placeholder count of the constructed
text does not match the values tuple (the case for every normally
rendered non-empty row, since the text carries the values spliced in and
no `%s`): psycopg2's merge raises `TypeError` client-side, nothing is
sent, neither commit nor rollback runs, and — because `with_cursor` has
no `finally` — the cursor stays open. -/
theorem insert_into_table_merge_fail (t : String) (cv : List (String × JVal))
    (s : HState) (h : countPlaceholders (insert_query t cv) ≠ cv.length) :
    insert_into_table t cv s =
      (.error .typeError,
       { s with db_cursor := some ()
                trace := s.trace ++
                  [.execute (insert_query t cv) (some (cv.map Prod.snd))] }) := by
  obtain ⟨cur, db, tr⟩ := s
  cases cur <;>
    simp [insert_into_table, insert_into_table_body, with_cursor, acquire_cursor,
      release_cursor, executeStmt, pushEvent, h]

/-- `insert_into_table` when the parameter merge passes and the table
exists: the row goes into the pending transaction, is committed (the
unconditional rollback afterwards discards nothing durable), and the
cursor is released. -/
theorem insert_into_table_mem (t : String) (cv : List (String × JVal))
    (s : HState) (hp : countPlaceholders (insert_query t cv) = cv.length)
    (h : t ∈ tableNames s.db) :
    insert_into_table t cv s =
      (.ok (),
       { db_cursor := none
         db := { tables := s.db.tables ++ s.db.pendingTables
                 pendingTables := []
                 rows := s.db.rows ++ (s.db.pendingRows ++ [(t, cv)])
                 pendingRows := [] }
         trace := s.trace ++
           [.execute (insert_query t cv) (some (cv.map Prod.snd)),
            .commit, .rollback] }) := by
  obtain ⟨cur, db, tr⟩ := s
  cases cur <;>
    simp [insert_into_table, insert_into_table_body, with_cursor, acquire_cursor,
      release_cursor, executeStmt, pushEvent, commitConn, rollbackConn, hp, h]

/-- `insert_into_table` when the parameter merge passes but the table is
missing: the server rejects the statement, the exception propagates
before any commit or rollback, and the cursor stays open. -/
theorem insert_into_table_not_mem (t : String) (cv : List (String × JVal))
    (s : HState) (hp : countPlaceholders (insert_query t cv) = cv.length)
    (h : t ∉ tableNames s.db) :
    insert_into_table t cv s =
      (.error .statementError,
       { s with db_cursor := some ()
                trace := s.trace ++
                  [.execute (insert_query t cv) (some (cv.map Prod.snd))] }) := by
  obtain ⟨cur, db, tr⟩ := s
  cases cur <;>
    simp [insert_into_table, insert_into_table_body, with_cursor, acquire_cursor,
      release_cursor, executeStmt, pushEvent, hp, h]

/-- `create_new_device_table` when `device_<key>` already exists: returns
`EXISTING` and only records the existence check. -/
theorem create_new_device_table_mem (key : String) (s : HState)
    (h : ("device_" ++ key) ∈ tableNames s.db) :
    create_new_device_table key s =
      (.ok .EXISTING,
       { s with db_cursor := none
                trace := s.trace ++
                  [.execute "SELECT EXISTS(SELECT 1 FROM information_schema.tables WHERE table_name=%s)"
                    (some [.str ("device_" ++ key)])] }) := by
  simp [create_new_device_table, check_table_exists_eq, h]

/-- `create_new_device_table` when `device_<key>` is absent: the table is
created with the fixed column layout and committed, and `NEW` is
returned. -/
theorem create_new_device_table_not_mem (key : String) (s : HState)
    (h : ("device_" ++ key) ∉ tableNames s.db) :
    create_new_device_table key s =
      (.ok .NEW,
       { db_cursor := none
         db := { tables := s.db.tables ++
                   (s.db.pendingTables ++ [("device_" ++ key, device_table_column_names)])
                 pendingTables := []
                 rows := s.db.rows ++ s.db.pendingRows
                 pendingRows := [] }
         trace := s.trace ++
           [.execute "SELECT EXISTS(SELECT 1 FROM information_schema.tables WHERE table_name=%s)"
              (some [.str ("device_" ++ key)]),
            .execute ("CREATE TABLE IF NOT EXISTS " ++ ("device_" ++ key) ++ " (" ++
              String.intercalate ", "
                (device_table_column_names.map fun p => p.1 ++ " " ++ p.2) ++ ")") none,
            .commit, .rollback] }) := by
  have h2 : ("device_" ++ key) ∉ tableNames
      ({ s with db_cursor := none
                trace := s.trace ++
                  [DbEvent.execute "SELECT EXISTS(SELECT 1 FROM information_schema.tables WHERE table_name=%s)"
                    (some [.str ("device_" ++ key)])] } : HState).db := h
  simp [create_new_device_table, check_table_exists_eq, h,
    create_table_not_mem _ _ _ h2]

/-- Claim C5: schema provisioning is idempotent — from any handler state,
a second `create_new_device_table` for the same entity key does not raise,
returns `EXISTING`, and leaves the whole database (tables, columns, rows)
exactly as the first call left it. -/
theorem c5_provisioning_idempotent (key : String) (s0 : HState) :
    (create_new_device_table key (create_new_device_table key s0).snd).fst =
      .ok DeviceTableStatus.EXISTING
    ∧ (create_new_device_table key (create_new_device_table key s0).snd).snd.db =
      (create_new_device_table key s0).snd.db := by
  have h2 : ("device_" ++ key) ∈
      tableNames (create_new_device_table key s0).snd.db := by
    by_cases h : ("device_" ++ key) ∈ tableNames s0.db
    · rw [create_new_device_table_mem key s0 h]
      exact h
    · rw [create_new_device_table_not_mem key s0 h]
      simp [tableNames]
  rw [create_new_device_table_mem key _ h2]
  exact ⟨rfl, rfl⟩

theorem lookupTable_append_right (t : String)
    (l1 l2 : List (String × List (String × String)))
    (h : t ∉ l1.map Prod.fst) :
    lookupTable t (l1 ++ l2) = lookupTable t l2 := by
  induction l1 with
  | nil => rfl
  | cons p rest ih =>
    obtain ⟨n, cols⟩ := p
    simp only [List.map_cons, List.mem_cons] at h
    push_neg at h
    obtain ⟨h1, h2⟩ := h
    rw [List.cons_append]
    rw [lookupTable]
    rw [if_neg fun hh => h1 hh.symm]
    exact ih h2

/-- Claim C8: for every entity name and every state where the entity's
table is absent, provisioning creates the storage structure named
`device_<name>` and its column set and order is exactly the documented
ten-column layout. -/
theorem c8_device_table_layout (name : String) (s0 : HState)
    (h : ("device_" ++ name) ∉ tableNames s0.db) :
    (create_new_device_table name s0).fst = .ok .NEW
    ∧ lookupTable ("device_" ++ name)
        (create_new_device_table name s0).snd.db.tables =
      some [("battery_percentage", "FLOAT"),
            ("battery_timestamp", "BIGINT"),
            ("gps_latitude", "FLOAT"),
            ("gps_longitude", "FLOAT"),
            ("gps_timestamp", "BIGINT"),
            ("ai_normal_percentage", "INT"),
            ("ai_error1_percentage", "INT"),
            ("ai_error2_percentage", "INT"),
            ("ai_error3_percentage", "INT"),
            ("ai_timestamp", "BIGINT")] := by
  rw [create_new_device_table_not_mem name s0 h]
  simp only [tableNames, List.mem_append] at h
  push_neg at h
  obtain ⟨h1, h2⟩ := h
  refine ⟨rfl, ?_⟩
  rw [← List.append_assoc]
  rw [lookupTable_append_right _ _ _ (by simpa using And.intro h1 h2)]
  rw [lookupTable]
  rw [if_pos rfl]
  rfl

/-- Claim C8, witness: on a fresh empty database, provisioning entity `X`
creates `device_X` with exactly the documented ten columns. -/
theorem c8_witness :
    (create_new_device_table "X" hs0).fst = .ok .NEW
    ∧ lookupTable ("device_" ++ "X")
        (create_new_device_table "X" hs0).snd.db.tables =
      some [("battery_percentage", "FLOAT"),
            ("battery_timestamp", "BIGINT"),
            ("gps_latitude", "FLOAT"),
            ("gps_longitude", "FLOAT"),
            ("gps_timestamp", "BIGINT"),
            ("ai_normal_percentage", "INT"),
            ("ai_error1_percentage", "INT"),
            ("ai_error2_percentage", "INT"),
            ("ai_error3_percentage", "INT"),
            ("ai_timestamp", "BIGINT")] :=
  c8_device_table_layout "X" hs0 (by decide)

/-- A successful telemetry fetch over a nonempty device list yields a list
headed by the first device paired with some mapped reading. -/
theorem get_all_telemetry_cons_shape (client : ThingsBoardDevice → TelemetryDict)
    (d : ThingsBoardDevice) (rest : List ThingsBoardDevice)
    (msgs : List (ThingsBoardDevice × TelemetryMessage))
    (h : get_all_telemetry client (d :: rest) = .ok msgs) :
    ∃ t tail, msgs = (d, t) :: tail := by
  have h' : get_all_telemetry_loop client d (d :: rest) = .ok msgs := h
  simp only [get_all_telemetry_loop] at h'
  cases hg : get_device_telemetry (client d) with
  | error e => rw [hg] at h'; simp [ebind_err] at h'
  | ok t =>
    rw [hg, ebind_ok] at h'
    cases hl : get_all_telemetry_loop client d rest with
    | error e => rw [hl, ebind_err] at h'; simp at h'
    | ok tail =>
      rw [hl, ebind_ok] at h'
      refine ⟨t, tail, ?_⟩
      have h'' : Except.ok ((d, t) :: tail) = (.ok msgs : Except PyError _) := h'
      cases h''
      rfl

/-- The first iteration of `run`'s per-message loop never returns
normally: after provisioning, `add_telemetry`'s insert either raises
(client-side `TypeError` or a server rejection) or — were it to succeed —
the `update_vehicles_data` attribute lookup on the next statement fails. -/
theorem run_loop_cons_never_ok (d : ThingsBoardDevice) (t : TelemetryMessage)
    (tail : List (ThingsBoardDevice × TelemetryMessage)) (s : HState) :
    (run_loop ((d, t) :: tail) s).fst ≠ .ok () := by
  obtain ⟨st, hstv⟩ : ∃ st, (create_new_device_table d.name s).fst = .ok st := by
    by_cases hx : ("device_" ++ d.name) ∈ tableNames s.db
    · exact ⟨.EXISTING, by rw [create_new_device_table_mem d.name s hx]⟩
    · exact ⟨.NEW, by rw [create_new_device_table_not_mem d.name s hx]⟩
  have hc : create_new_device_table d.name s =
      (.ok st, (create_new_device_table d.name s).snd) := by
    conv_lhs => rw [← Prod.mk.eta (p := create_new_device_table d.name s)]
    rw [hstv]
  simp only [run_loop]
  rw [hc]
  rcases hins : add_telemetry d.name t ((create_new_device_table d.name s).snd)
    with ⟨res, s2⟩
  cases res <;> simp [hins]

/-- The first iteration of `run`'s per-message loop raises the
client-side `TypeError` whenever the INSERT text built for the first
message has no matching `%s` placeholders for its values — before the
`update_vehicles_data` lookup is ever reached. -/
theorem run_loop_cons_merge_fail (d : ThingsBoardDevice) (t : TelemetryMessage)
    (tail : List (ThingsBoardDevice × TelemetryMessage)) (s : HState)
    (hcount : countPlaceholders (insert_query ("device_" ++ d.name)
        (telemetry_to_database_entry_converter t)) ≠
      (telemetry_to_database_entry_converter t).length) :
    (run_loop ((d, t) :: tail) s).fst = .error .typeError := by
  obtain ⟨st, hstv⟩ : ∃ st, (create_new_device_table d.name s).fst = .ok st := by
    by_cases hx : ("device_" ++ d.name) ∈ tableNames s.db
    · exact ⟨.EXISTING, by rw [create_new_device_table_mem d.name s hx]⟩
    · exact ⟨.NEW, by rw [create_new_device_table_not_mem d.name s hx]⟩
  have hc : create_new_device_table d.name s =
      (.ok st, (create_new_device_table d.name s).snd) := by
    conv_lhs => rw [← Prod.mk.eta (p := create_new_device_table d.name s)]
    rw [hstv]
  simp only [run_loop]
  rw [hc]
  simp only [add_telemetry]
  rw [insert_into_table_merge_fail ("device_" ++ d.name)
    (telemetry_to_database_entry_converter t) _ hcount]

/-- Claim C9, counterexample: with one device reporting a fully
well-formed reading, `run` aborts with the client-side `TypeError`
raised inside `add_telemetry`'s insert (non-empty execute parameters,
no placeholders in the INSERT text) — not with the claimed
`AttributeError` for `update_vehicles_data`, whose lookup is never
reached. -/
theorem c9_counterexample_typeerror_before_lookup :
    (run clientGood [devA] hs0).fst = .error .typeError
    ∧ (Except.error PyError.typeError : Except PyError Unit) ≠
        .error (.attributeError "update_vehicles_data") :=
  ⟨rfl, by decide⟩

/-- Claim C9 as amended: `run`'s source text invokes
`update_vehicles_data` after `add_telemetry` and `DatabaseAdaptor`
defines no method of that name, but execution never reaches the lookup:
for every telemetry source, nonempty device list and handler state `run`
never completes a cycle normally, and whenever the fetch succeeds and the
first message's INSERT text carries no matching placeholders (the case
for every normally rendered reading), `run` aborts during the first
entity's `add_telemetry` with psycopg2's client-side `TypeError`. -/
theorem c9_amended_run_aborts_in_insert (client : ThingsBoardDevice → TelemetryDict)
    (d : ThingsBoardDevice) (rest : List ThingsBoardDevice) (s : HState) :
    (run client (d :: rest) s).fst ≠ .ok ()
    ∧ ∀ t tail, get_all_telemetry client (d :: rest) = .ok ((d, t) :: tail) →
        countPlaceholders (insert_query ("device_" ++ d.name)
            (telemetry_to_database_entry_converter t)) ≠
          (telemetry_to_database_entry_converter t).length →
        (run client (d :: rest) s).fst = .error .typeError := by
  constructor
  · cases hf : get_all_telemetry client (d :: rest) with
    | error e => simp [run, hf]
    | ok msgs =>
      obtain ⟨t, tail, rfl⟩ := get_all_telemetry_cons_shape client d rest msgs hf
      simp only [run]
      rw [hf]
      exact run_loop_cons_never_ok d t tail s
  · intro t tail hf hcount
    simp only [run]
    rw [hf]
    exact run_loop_cons_merge_fail d t tail s hcount

/-- Claim C9 (amended), witness: one device with a fully well-formed
reading — the run aborts with `TypeError` during the first entity's
insert. -/
theorem c9_amended_witness :
    (run clientGood [devA] hs0).fst = .error .typeError :=
  (c9_amended_run_aborts_in_insert clientGood devA [] hs0).2 _ _ rfl (by decide)

/-- Claim C10: for every table name, every non-empty column-value mapping
and every handler state, the INSERT statement sent by `insert_into_table`
is literally `INSERT INTO <table> (<comma-joined keys>) VALUES
(<comma-joined str(value)s>)` — the values spliced into the SQL text via
`str` — while the very same values are additionally passed as execute
parameters. -/
theorem c10_insert_query_format (table_name : String)
    (column_values : List (String × JVal)) (s : HState)
    (hne : column_values ≠ []) :
    (insert_into_table table_name column_values s).snd.trace =
      s.trace ++
        DbEvent.execute ("INSERT INTO " ++ table_name ++ " (" ++
            String.intercalate ", " (column_values.map Prod.fst) ++ ") VALUES (" ++
            String.intercalate ", " (column_values.map fun p => pyStr p.2) ++ ")")
          (some (column_values.map Prod.snd)) ::
        (if countPlaceholders (insert_query table_name column_values) =
              column_values.length ∧ table_name ∈ tableNames s.db then
          [DbEvent.commit, DbEvent.rollback] else []) := by
  by_cases hp : countPlaceholders (insert_query table_name column_values) =
      column_values.length
  · by_cases hm : table_name ∈ tableNames s.db
    · rw [insert_into_table_mem _ _ _ hp hm]
      simp only [insert_query] at hp ⊢
      simp [hp, hm]
    · rw [insert_into_table_not_mem _ _ _ hp hm]
      simp only [insert_query] at hp ⊢
      simp [hp, hm]
  · rw [insert_into_table_merge_fail _ _ _ hp]
    simp only [insert_query] at hp ⊢
    simp [hp]

/-- Claim C10, witness: inserting `{"a": 1}` into existing table `t`
passes exactly `INSERT INTO t (a) VALUES (1)` to execute, with `1` also
passed as a parameter. -/
theorem c10_witness :
    (insert_into_table "t" [("a", JVal.num 1)] hsWithT).snd.trace =
      hsWithT.trace ++
        DbEvent.execute ("INSERT INTO " ++ "t" ++ " (" ++
            String.intercalate ", " ([("a", JVal.num 1)].map Prod.fst) ++ ") VALUES (" ++
            String.intercalate ", " ([("a", JVal.num 1)].map fun p => pyStr p.2) ++ ")")
          (some ([("a", JVal.num 1)].map Prod.snd)) ::
        (if countPlaceholders (insert_query "t" [("a", JVal.num 1)]) =
              ([("a", JVal.num 1)] : List (String × JVal)).length ∧
              "t" ∈ tableNames hsWithT.db then
          [DbEvent.commit, DbEvent.rollback] else []) :=
  c10_insert_query_format "t" [("a", JVal.num 1)] hsWithT (by decide)

theorem epure_eq {α : Type} (a : α) : (pure a : Except PyError α) = .ok a := rfl

theorem wfGroupB_elim (msg : TelemetryDict) (g : String)
    (h : wfGroupB msg g = true) :
    ∃ e rest obj, dictGet g msg = .ok (e :: rest)
      ∧ jsonLoads e.value = .ok obj
      ∧ ∀ s ∈ groupSubFields g, ∃ v, dictGet s obj = .ok v := by
  unfold wfGroupB at h
  cases hd : dictGet g msg with
  | error er => rw [hd] at h; simp at h
  | ok entries =>
    rw [hd] at h
    cases entries with
    | nil => simp at h
    | cons e rest =>
      have h2 : (match jsonLoads e.value with
          | .error _ => false
          | .ok obj => (groupSubFields g).all fun s => exIsOk (dictGet s obj)) =
            true := h
      cases hj : jsonLoads e.value with
      | error er => rw [hj] at h2; simp at h2
      | ok obj =>
        rw [hj] at h2
        have h3 : (groupSubFields g).all (fun s => exIsOk (dictGet s obj)) = true := h2
        refine ⟨e, rest, obj, rfl, hj, ?_⟩
        intro s hs
        exact (exIsOk_iff _).mp (List.all_eq_true.mp h3 s hs)

theorem loadGroup_eq (msg : TelemetryDict) (g : String) (e : TsEntry)
    (rest : List TsEntry) (obj : List (String × JVal))
    (hd : dictGet g msg = .ok (e :: rest)) (hj : jsonLoads e.value = .ok obj) :
    loadGroup msg g = .ok obj := by
  simp only [loadGroup, hd, ebind_ok, listHead, hj]

theorem jfield_eq_of (msg : TelemetryDict) (g s : String)
    (obj : List (String × JVal)) (hl : loadGroup msg g = .ok obj) :
    jfield msg g s = dictGet s obj := by
  simp only [jfield, hl, ebind_ok]

theorem jfield_err_group (msg : TelemetryDict) (g s : String) (er : PyError)
    (hd : dictGet g msg = .error er) :
    jfield msg g s = .error er := by
  simp only [jfield, loadGroup, hd, ebind_err]

theorem jfield_err_parse (msg : TelemetryDict) (g s : String) (e : TsEntry)
    (rest : List TsEntry)
    (hd : dictGet g msg = .ok (e :: rest))
    (hj : jsonLoads e.value = .error .jsonDecodeError) :
    jfield msg g s = .error .jsonDecodeError := by
  simp only [jfield, loadGroup, hd, ebind_ok, listHead, hj, ebind_err]

theorem jfield_wf_ok (msg : TelemetryDict) (g s : String)
    (hwf : wfGroupB msg g = true) (hs : s ∈ groupSubFields g) :
    ∃ v, jfield msg g s = .ok v := by
  obtain ⟨e, rest, obj, hd, hj, hsub⟩ := wfGroupB_elim msg g hwf
  obtain ⟨v, hv⟩ := hsub s hs
  exact ⟨v, by rw [jfield_eq_of msg g s obj (loadGroup_eq msg g e rest obj hd hj)]; exact hv⟩

theorem outer_ts_wf_ok (msg : TelemetryDict) (g : String)
    (hwf : wfGroupB msg g = true) :
    ∃ v, outer_ts msg g = .ok v := by
  obtain ⟨e, rest, obj, hd, hj, hsub⟩ := wfGroupB_elim msg g hwf
  exact ⟨e.ts, by simp only [outer_ts, hd, ebind_ok, listHead, epure_eq]⟩

/-- Claim C6 as amended: for any raw reading and any required sensor
group `g` whose other groups are well-formed, (1) when `g` is absent the
mapper fails with `KeyError` naming `g`; (2) when `g`'s payload cannot be
parsed the mapper fails with the JSON decode error (which names no group);
(3) when a payload sub-field is missing the mapper fails with `KeyError`
naming that sub-field.  In every case the mapper produces no partial
record and substitutes no default for the missing data. -/
theorem c6_amended_mapper_totality (msg : TelemetryDict) (g : String)
    (hg : g ∈ requiredGroups)
    (hwf : ∀ g' ∈ requiredGroups, g' ≠ g → wfGroupB msg g' = true) :
    (dictGet g msg = .error (.keyError g) →
        get_device_telemetry msg = .error (.keyError g))
    ∧ (∀ e rest, dictGet g msg = .ok (e :: rest) →
        jsonLoads e.value = .error .jsonDecodeError →
        get_device_telemetry msg = .error .jsonDecodeError)
    ∧ (∀ e rest obj s, dictGet g msg = .ok (e :: rest) →
        jsonLoads e.value = .ok obj →
        s ∈ groupSubFields g →
        (∀ s', s' ∈ groupSubFields g → s' ≠ s → exIsOk (dictGet s' obj) = true) →
        dictGet s obj = .error (.keyError s) →
        get_device_telemetry msg = .error (.keyError s)) := by
  have hg' : g = "bat" ∨ g = "gnss" ∨ g = "dev" ∨ g = "env" ∨ g = "ai" := by
    simpa [requiredGroups] using hg
  rcases hg' with rfl | rfl | rfl | rfl | rfl
  · -- group "bat": nothing precedes it
    refine ⟨?_, ?_, ?_⟩
    · intro hd
      simp only [get_device_telemetry, jfield_err_group msg "bat" "v" _ hd, ebind_err]
    · intro e rest hd hj
      simp only [get_device_telemetry,
        jfield_err_parse msg "bat" "v" e rest hd hj, ebind_err]
    · intro e rest obj s hd hj hs hothers hmiss
      have hf : ∀ s', jfield msg "bat" s' = dictGet s' obj :=
        fun s' => jfield_eq_of msg "bat" s' obj (loadGroup_eq msg "bat" e rest obj hd hj)
      have hsl : s ∈ (["v", "ts"] : List String) := hs
      have hs2 : s = "v" ∨ s = "ts" := by simpa using hsl
      rcases hs2 with rfl | rfl
      · simp only [get_device_telemetry, hf, hmiss, ebind_err]
      · obtain ⟨va, ha⟩ := (exIsOk_iff _).mp (hothers "v" (by decide) (by decide))
        simp only [get_device_telemetry, hf, ha, hmiss, ebind_ok, ebind_err]
  · -- group "gnss": preceded by "bat"
    have wb : wfGroupB msg "bat" = true := hwf "bat" (by decide) (by decide)
    obtain ⟨v1, h1⟩ := jfield_wf_ok msg "bat" "v" wb (by decide)
    obtain ⟨v2, h2⟩ := jfield_wf_ok msg "bat" "ts" wb (by decide)
    refine ⟨?_, ?_, ?_⟩
    · intro hd
      simp only [get_device_telemetry, h1, h2,
        jfield_err_group msg "gnss" "lat" _ hd, ebind_ok, ebind_err]
    · intro e rest hd hj
      simp only [get_device_telemetry, h1, h2,
        jfield_err_parse msg "gnss" "lat" e rest hd hj, ebind_ok, ebind_err]
    · intro e rest obj s hd hj hs hothers hmiss
      have hf : ∀ s', jfield msg "gnss" s' = dictGet s' obj :=
        fun s' => jfield_eq_of msg "gnss" s' obj (loadGroup_eq msg "gnss" e rest obj hd hj)
      have hsl : s ∈ (["lat", "lng", "spd"] : List String) := hs
      have hs2 : s = "lat" ∨ s = "lng" ∨ s = "spd" := by simpa using hsl
      rcases hs2 with rfl | rfl | rfl
      · simp only [get_device_telemetry, h1, h2, hf, hmiss, ebind_ok, ebind_err]
      · obtain ⟨va, ha⟩ := (exIsOk_iff _).mp (hothers "lat" (by decide) (by decide))
        simp only [get_device_telemetry, h1, h2, hf, ha, hmiss, ebind_ok, ebind_err]
      · obtain ⟨va, ha⟩ := (exIsOk_iff _).mp (hothers "lat" (by decide) (by decide))
        obtain ⟨vb, hb⟩ := (exIsOk_iff _).mp (hothers "lng" (by decide) (by decide))
        simp only [get_device_telemetry, h1, h2, hf, ha, hb, hmiss, ebind_ok, ebind_err]
  · -- group "dev": preceded by "bat" and "gnss"
    have wb : wfGroupB msg "bat" = true := hwf "bat" (by decide) (by decide)
    have wg : wfGroupB msg "gnss" = true := hwf "gnss" (by decide) (by decide)
    obtain ⟨v1, h1⟩ := jfield_wf_ok msg "bat" "v" wb (by decide)
    obtain ⟨v2, h2⟩ := jfield_wf_ok msg "bat" "ts" wb (by decide)
    obtain ⟨v3, h3⟩ := jfield_wf_ok msg "gnss" "lat" wg (by decide)
    obtain ⟨v4, h4⟩ := jfield_wf_ok msg "gnss" "lng" wg (by decide)
    obtain ⟨v5, h5⟩ := jfield_wf_ok msg "gnss" "spd" wg (by decide)
    obtain ⟨v6, h6⟩ := outer_ts_wf_ok msg "gnss" wg
    refine ⟨?_, ?_, ?_⟩
    · intro hd
      simp only [get_device_telemetry, h1, h2, h3, h4, h5, h6,
        jfield_err_group msg "dev" "imei" _ hd, ebind_ok, ebind_err]
    · intro e rest hd hj
      simp only [get_device_telemetry, h1, h2, h3, h4, h5, h6,
        jfield_err_parse msg "dev" "imei" e rest hd hj, ebind_ok, ebind_err]
    · intro e rest obj s hd hj hs hothers hmiss
      have hf : ∀ s', jfield msg "dev" s' = dictGet s' obj :=
        fun s' => jfield_eq_of msg "dev" s' obj (loadGroup_eq msg "dev" e rest obj hd hj)
      have hsl : s ∈ (["imei", "iccid", "modV", "brdV", "appV", "ts"] : List String) := hs
      have hs2 : s = "imei" ∨ s = "iccid" ∨ s = "modV" ∨ s = "brdV" ∨
          s = "appV" ∨ s = "ts" := by simpa using hsl
      rcases hs2 with rfl | rfl | rfl | rfl | rfl | rfl
      · simp only [get_device_telemetry, h1, h2, h3, h4, h5, h6, hf, hmiss,
          ebind_ok, ebind_err]
      · obtain ⟨va, ha⟩ := (exIsOk_iff _).mp (hothers "imei" (by decide) (by decide))
        simp only [get_device_telemetry, h1, h2, h3, h4, h5, h6, hf, ha, hmiss,
          ebind_ok, ebind_err]
      · obtain ⟨va, ha⟩ := (exIsOk_iff _).mp (hothers "imei" (by decide) (by decide))
        obtain ⟨vb, hb⟩ := (exIsOk_iff _).mp (hothers "iccid" (by decide) (by decide))
        simp only [get_device_telemetry, h1, h2, h3, h4, h5, h6, hf, ha, hb, hmiss,
          ebind_ok, ebind_err]
      · obtain ⟨va, ha⟩ := (exIsOk_iff _).mp (hothers "imei" (by decide) (by decide))
        obtain ⟨vb, hb⟩ := (exIsOk_iff _).mp (hothers "iccid" (by decide) (by decide))
        obtain ⟨vc, hc⟩ := (exIsOk_iff _).mp (hothers "modV" (by decide) (by decide))
        simp only [get_device_telemetry, h1, h2, h3, h4, h5, h6, hf, ha, hb, hc,
          hmiss, ebind_ok, ebind_err]
      · obtain ⟨va, ha⟩ := (exIsOk_iff _).mp (hothers "imei" (by decide) (by decide))
        obtain ⟨vb, hb⟩ := (exIsOk_iff _).mp (hothers "iccid" (by decide) (by decide))
        obtain ⟨vc, hc⟩ := (exIsOk_iff _).mp (hothers "modV" (by decide) (by decide))
        obtain ⟨vd, hd2⟩ := (exIsOk_iff _).mp (hothers "brdV" (by decide) (by decide))
        simp only [get_device_telemetry, h1, h2, h3, h4, h5, h6, hf, ha, hb, hc,
          hd2, hmiss, ebind_ok, ebind_err]
      · obtain ⟨va, ha⟩ := (exIsOk_iff _).mp (hothers "imei" (by decide) (by decide))
        obtain ⟨vb, hb⟩ := (exIsOk_iff _).mp (hothers "iccid" (by decide) (by decide))
        obtain ⟨vc, hc⟩ := (exIsOk_iff _).mp (hothers "modV" (by decide) (by decide))
        obtain ⟨vd, hd2⟩ := (exIsOk_iff _).mp (hothers "brdV" (by decide) (by decide))
        obtain ⟨ve, he⟩ := (exIsOk_iff _).mp (hothers "appV" (by decide) (by decide))
        simp only [get_device_telemetry, h1, h2, h3, h4, h5, h6, hf, ha, hb, hc,
          hd2, he, hmiss, ebind_ok, ebind_err]
  · -- group "env": preceded by "bat", "gnss" and "dev"
    have wb : wfGroupB msg "bat" = true := hwf "bat" (by decide) (by decide)
    have wg : wfGroupB msg "gnss" = true := hwf "gnss" (by decide) (by decide)
    have wd : wfGroupB msg "dev" = true := hwf "dev" (by decide) (by decide)
    obtain ⟨v1, h1⟩ := jfield_wf_ok msg "bat" "v" wb (by decide)
    obtain ⟨v2, h2⟩ := jfield_wf_ok msg "bat" "ts" wb (by decide)
    obtain ⟨v3, h3⟩ := jfield_wf_ok msg "gnss" "lat" wg (by decide)
    obtain ⟨v4, h4⟩ := jfield_wf_ok msg "gnss" "lng" wg (by decide)
    obtain ⟨v5, h5⟩ := jfield_wf_ok msg "gnss" "spd" wg (by decide)
    obtain ⟨v6, h6⟩ := outer_ts_wf_ok msg "gnss" wg
    obtain ⟨v7, h7⟩ := jfield_wf_ok msg "dev" "imei" wd (by decide)
    obtain ⟨v8, h8⟩ := jfield_wf_ok msg "dev" "iccid" wd (by decide)
    obtain ⟨v9, h9⟩ := jfield_wf_ok msg "dev" "modV" wd (by decide)
    obtain ⟨v10, h10⟩ := jfield_wf_ok msg "dev" "brdV" wd (by decide)
    obtain ⟨v11, h11⟩ := jfield_wf_ok msg "dev" "appV" wd (by decide)
    obtain ⟨v12, h12⟩ := jfield_wf_ok msg "dev" "ts" wd (by decide)
    refine ⟨?_, ?_, ?_⟩
    · intro hd
      simp only [get_device_telemetry, h1, h2, h3, h4, h5, h6, h7, h8, h9, h10,
        h11, h12, jfield_err_group msg "env" "temp" _ hd, ebind_ok, ebind_err]
    · intro e rest hd hj
      simp only [get_device_telemetry, h1, h2, h3, h4, h5, h6, h7, h8, h9, h10,
        h11, h12, jfield_err_parse msg "env" "temp" e rest hd hj, ebind_ok, ebind_err]
    · intro e rest obj s hd hj hs hothers hmiss
      have hf : ∀ s', jfield msg "env" s' = dictGet s' obj :=
        fun s' => jfield_eq_of msg "env" s' obj (loadGroup_eq msg "env" e rest obj hd hj)
      have hsl : s ∈ (["temp", "hum", "atmp", "ts"] : List String) := hs
      have hs2 : s = "temp" ∨ s = "hum" ∨ s = "atmp" ∨ s = "ts" := by simpa using hsl
      rcases hs2 with rfl | rfl | rfl | rfl
      · simp only [get_device_telemetry, h1, h2, h3, h4, h5, h6, h7, h8, h9, h10,
          h11, h12, hf, hmiss, ebind_ok, ebind_err]
      · obtain ⟨va, ha⟩ := (exIsOk_iff _).mp (hothers "temp" (by decide) (by decide))
        simp only [get_device_telemetry, h1, h2, h3, h4, h5, h6, h7, h8, h9, h10,
          h11, h12, hf, ha, hmiss, ebind_ok, ebind_err]
      · obtain ⟨va, ha⟩ := (exIsOk_iff _).mp (hothers "temp" (by decide) (by decide))
        obtain ⟨vb, hb⟩ := (exIsOk_iff _).mp (hothers "hum" (by decide) (by decide))
        simp only [get_device_telemetry, h1, h2, h3, h4, h5, h6, h7, h8, h9, h10,
          h11, h12, hf, ha, hb, hmiss, ebind_ok, ebind_err]
      · obtain ⟨va, ha⟩ := (exIsOk_iff _).mp (hothers "temp" (by decide) (by decide))
        obtain ⟨vb, hb⟩ := (exIsOk_iff _).mp (hothers "hum" (by decide) (by decide))
        obtain ⟨vc, hc⟩ := (exIsOk_iff _).mp (hothers "atmp" (by decide) (by decide))
        simp only [get_device_telemetry, h1, h2, h3, h4, h5, h6, h7, h8, h9, h10,
          h11, h12, hf, ha, hb, hc, hmiss, ebind_ok, ebind_err]
  · -- group "ai": preceded by all other groups
    have wb : wfGroupB msg "bat" = true := hwf "bat" (by decide) (by decide)
    have wg : wfGroupB msg "gnss" = true := hwf "gnss" (by decide) (by decide)
    have wd : wfGroupB msg "dev" = true := hwf "dev" (by decide) (by decide)
    have we : wfGroupB msg "env" = true := hwf "env" (by decide) (by decide)
    obtain ⟨v1, h1⟩ := jfield_wf_ok msg "bat" "v" wb (by decide)
    obtain ⟨v2, h2⟩ := jfield_wf_ok msg "bat" "ts" wb (by decide)
    obtain ⟨v3, h3⟩ := jfield_wf_ok msg "gnss" "lat" wg (by decide)
    obtain ⟨v4, h4⟩ := jfield_wf_ok msg "gnss" "lng" wg (by decide)
    obtain ⟨v5, h5⟩ := jfield_wf_ok msg "gnss" "spd" wg (by decide)
    obtain ⟨v6, h6⟩ := outer_ts_wf_ok msg "gnss" wg
    obtain ⟨v7, h7⟩ := jfield_wf_ok msg "dev" "imei" wd (by decide)
    obtain ⟨v8, h8⟩ := jfield_wf_ok msg "dev" "iccid" wd (by decide)
    obtain ⟨v9, h9⟩ := jfield_wf_ok msg "dev" "modV" wd (by decide)
    obtain ⟨v10, h10⟩ := jfield_wf_ok msg "dev" "brdV" wd (by decide)
    obtain ⟨v11, h11⟩ := jfield_wf_ok msg "dev" "appV" wd (by decide)
    obtain ⟨v12, h12⟩ := jfield_wf_ok msg "dev" "ts" wd (by decide)
    obtain ⟨v13, h13⟩ := jfield_wf_ok msg "env" "temp" we (by decide)
    obtain ⟨v14, h14⟩ := jfield_wf_ok msg "env" "hum" we (by decide)
    obtain ⟨v15, h15⟩ := jfield_wf_ok msg "env" "atmp" we (by decide)
    obtain ⟨v16, h16⟩ := jfield_wf_ok msg "env" "ts" we (by decide)
    refine ⟨?_, ?_, ?_⟩
    · intro hd
      simp only [get_device_telemetry, h1, h2, h3, h4, h5, h6, h7, h8, h9, h10,
        h11, h12, h13, h14, h15, h16,
        jfield_err_group msg "ai" "n" _ hd, ebind_ok, ebind_err]
    · intro e rest hd hj
      simp only [get_device_telemetry, h1, h2, h3, h4, h5, h6, h7, h8, h9, h10,
        h11, h12, h13, h14, h15, h16,
        jfield_err_parse msg "ai" "n" e rest hd hj, ebind_ok, ebind_err]
    · intro e rest obj s hd hj hs hothers hmiss
      have hf : ∀ s', jfield msg "ai" s' = dictGet s' obj :=
        fun s' => jfield_eq_of msg "ai" s' obj (loadGroup_eq msg "ai" e rest obj hd hj)
      have hsl : s ∈ (["n", "e1", "e2", "e3", "ts"] : List String) := hs
      have hs2 : s = "n" ∨ s = "e1" ∨ s = "e2" ∨ s = "e3" ∨ s = "ts" := by simpa using hsl
      rcases hs2 with rfl | rfl | rfl | rfl | rfl
      · simp only [get_device_telemetry, h1, h2, h3, h4, h5, h6, h7, h8, h9, h10,
          h11, h12, h13, h14, h15, h16, hf, hmiss, ebind_ok, ebind_err]
      · obtain ⟨va, ha⟩ := (exIsOk_iff _).mp (hothers "n" (by decide) (by decide))
        simp only [get_device_telemetry, h1, h2, h3, h4, h5, h6, h7, h8, h9, h10,
          h11, h12, h13, h14, h15, h16, hf, ha, hmiss, ebind_ok, ebind_err]
      · obtain ⟨va, ha⟩ := (exIsOk_iff _).mp (hothers "n" (by decide) (by decide))
        obtain ⟨vb, hb⟩ := (exIsOk_iff _).mp (hothers "e1" (by decide) (by decide))
        simp only [get_device_telemetry, h1, h2, h3, h4, h5, h6, h7, h8, h9, h10,
          h11, h12, h13, h14, h15, h16, hf, ha, hb, hmiss, ebind_ok, ebind_err]
      · obtain ⟨va, ha⟩ := (exIsOk_iff _).mp (hothers "n" (by decide) (by decide))
        obtain ⟨vb, hb⟩ := (exIsOk_iff _).mp (hothers "e1" (by decide) (by decide))
        obtain ⟨vc, hc⟩ := (exIsOk_iff _).mp (hothers "e2" (by decide) (by decide))
        simp only [get_device_telemetry, h1, h2, h3, h4, h5, h6, h7, h8, h9, h10,
          h11, h12, h13, h14, h15, h16, hf, ha, hb, hc, hmiss, ebind_ok, ebind_err]
      · obtain ⟨va, ha⟩ := (exIsOk_iff _).mp (hothers "n" (by decide) (by decide))
        obtain ⟨vb, hb⟩ := (exIsOk_iff _).mp (hothers "e1" (by decide) (by decide))
        obtain ⟨vc, hc⟩ := (exIsOk_iff _).mp (hothers "e2" (by decide) (by decide))
        obtain ⟨vd, hd2⟩ := (exIsOk_iff _).mp (hothers "e3" (by decide) (by decide))
        simp only [get_device_telemetry, h1, h2, h3, h4, h5, h6, h7, h8, h9, h10,
          h11, h12, h13, h14, h15, h16, hf, ha, hb, hc, hd2, hmiss, ebind_ok, ebind_err]

/-- Claim C6, counterexample to the claim as stated: when a group's
payload cannot be parsed, the mapper fails with the JSON decode error,
which names NO group or field — so the error does not name the `bat`
group whose payload was malformed. -/
theorem c6_counterexample_parse_error_names_no_group :
    get_device_telemetry c6BadBatMsg = .error .jsonDecodeError
    ∧ errorNamesKey .jsonDecodeError = none :=
  ⟨rfl, rfl⟩

/-- Claim C6 (amended), witness: on a reading missing exactly the `ai`
group, the mapper fails with `KeyError("ai")` — naming that group and
producing no record. -/
theorem c6_amended_witness :
    get_device_telemetry c6MissingAiMsg = .error (.keyError "ai") :=
  (c6_amended_mapper_totality c6MissingAiMsg "ai" (by decide) (by decide)).1
    (by decide)
